import Mathlib

/-!
Verification development for the OrganDigitalTwinFHE contract
(src/unnamed/part_000, Solidity).

Modelling conventions (shallow embedding):
- euint32 ciphertext handles are modelled with exact arithmetic over Nat:
  an encrypted zero is 0 and a homomorphic add of one is successor, per the
  interface boundary of the specification (the encryption scheme's
  arithmetic is an external collaborator).
- Solidity mappings are total functions with the Solidity default value
  (0 for uint256, the all-empty struct for result records); an euint32
  mapping slot that was never written is modelled as Option.none, matching
  FHE.isInitialized returning false.
- The oracle is external: FHE.requestDecryption returning a fresh request
  id is modelled by passing the oracle-chosen request id as an explicit
  argument; FHE.checkSignatures is modelled by a Bool argument that states
  whether proof verification succeeds, and a failed check reverts.
- keccak256 over category strings is modelled by an explicit hash-function
  parameter (String to Nat).
- Fallible entry points return Except; a revert means no state change, as
  in the EVM transactional semantics. The out-of-bounds access of
  simulationData[0] on an empty decoded array is checked before any write
  since an EVM revert rolls the writes back either way.
-/

/-- Record stored per twin id: the three ciphertext handles and the
creation timestamp, mirroring struct EncryptedOrganModel. -/
structure EncryptedOrganModel where
  twinId : Nat
  encryptedOrganType : Nat
  encryptedPhysioData : Nat
  encryptedGeneticMarkers : Nat
  creationTime : Nat
deriving DecidableEq, Repr

/-- Pending simulation parameters per twin id, mirroring struct
EncryptedSimulationParams; the unused branch holds an encrypted zero. -/
structure EncryptedSimulationParams where
  encryptedDrugCompound : Nat
  encryptedDosage : Nat
  encryptedProcedureType : Nat
deriving DecidableEq, Repr

/-- Per-twin result slot, mirroring struct DecryptedSimulationResult. -/
structure DecryptedSimulationResult where
  predictedEffect : String
  riskAssessment : String
  recommendedAdjustment : String
  isRevealed : Bool
deriving DecidableEq, Repr

/-- The Solidity default value of a result mapping slot: empty strings and
a false revealed flag. -/
def emptyResult : DecryptedSimulationResult :=
  { predictedEffect := ""
    riskAssessment := ""
    recommendedAdjustment := ""
    isRevealed := false }

/-- The contract storage: twin counter, the four mappings and the category
list, mirroring the state variables of OrganDigitalTwinFHE. -/
structure ContractState where
  twinCount : Nat
  encryptedOrganTwins : Nat → Option EncryptedOrganModel
  encryptedSimulations : Nat → Option EncryptedSimulationParams
  decryptedResults : Nat → DecryptedSimulationResult
  encryptedOrganTypeCount : String → Option Nat
  organTypeList : List String
  requestToTwinId : Nat → Nat

/-- The storage of a freshly deployed contract: all mappings hold their
Solidity defaults. -/
def initialState : ContractState :=
  { twinCount := 0
    encryptedOrganTwins := fun _ => none
    encryptedSimulations := fun _ => none
    decryptedResults := fun _ => emptyResult
    encryptedOrganTypeCount := fun _ => none
    organTypeList := []
    requestToTwinId := fun _ => 0 }

/-- Revert reasons of the contract entry points.  InvalidRequest is the
string "Invalid request", AlreadyProcessed is "Already processed",
InvalidTwinId is "Invalid twin ID", OrganTypeNotFound is
"Organ type not found"; InvalidProof is the revert raised inside
FHE.checkSignatures, and IndexOutOfBounds is the EVM panic on
simulationData[0] when the decoded array is empty. -/
inductive ContractError where
  | InvalidRequest
  | AlreadyProcessed
  | InvalidProof
  | InvalidTwinId
  | OrganTypeNotFound
  | IndexOutOfBounds
deriving DecidableEq, Repr

/-- Projection of an Except outcome to its error, when there is one. -/
def errOf {α : Type} (e : Except ContractError α) : Option ContractError :=
  match e with
  | .error x => some x
  | .ok _ => none

/-- True when an Except outcome is a success. -/
def okOf {α : Type} (e : Except ContractError α) : Bool :=
  match e with
  | .error _ => false
  | .ok _ => true

/-- Mirrors createEncryptedTwin: increments the counter, stores the three
handles with the block timestamp under the new id, and initializes that
id's result slot to the empty unrevealed record. -/
def createEncryptedTwin (encryptedOrganType encryptedPhysioData
    encryptedGeneticMarkers timestamp : Nat) (st : ContractState) :
    ContractState :=
  { st with
    twinCount := st.twinCount + 1
    encryptedOrganTwins := fun k =>
      if k = st.twinCount + 1 then
        some { twinId := st.twinCount + 1
               encryptedOrganType := encryptedOrganType
               encryptedPhysioData := encryptedPhysioData
               encryptedGeneticMarkers := encryptedGeneticMarkers
               creationTime := timestamp }
      else st.encryptedOrganTwins k
    decryptedResults := fun k =>
      if k = st.twinCount + 1 then emptyResult else st.decryptedResults k }

/-- Mirrors prepareSimulationData: the fixed four-element oracle payload,
reading storage defaults (zero handles) for never-written slots. -/
def prepareSimulationData (twinId : Nat) (isSurgery : Bool)
    (st : ContractState) : List Nat :=
  let model := (st.encryptedOrganTwins twinId).getD
    { twinId := 0, encryptedOrganType := 0, encryptedPhysioData := 0
      encryptedGeneticMarkers := 0, creationTime := 0 }
  let params := (st.encryptedSimulations twinId).getD
    { encryptedDrugCompound := 0, encryptedDosage := 0
      encryptedProcedureType := 0 }
  [model.encryptedOrganType, model.encryptedPhysioData,
   model.encryptedGeneticMarkers,
   if isSurgery then params.encryptedProcedureType
   else params.encryptedDrugCompound]

/-- Mirrors requestDrugSimulation: requires twinId <= twinCount, stores the
parameters with a zero procedure branch, then registers the oracle-chosen
request id in requestToTwinId.  On success it also returns the payload
sent to the oracle. -/
def requestDrugSimulation (twinId encryptedDrugCompound encryptedDosage
    reqId : Nat) (st : ContractState) :
    Except ContractError (ContractState × List Nat) :=
  if twinId ≤ st.twinCount then
    .ok ({ st with
      encryptedSimulations := fun k =>
        if k = twinId then
          some { encryptedDrugCompound := encryptedDrugCompound
                 encryptedDosage := encryptedDosage
                 encryptedProcedureType := 0 }
        else st.encryptedSimulations k
      requestToTwinId := fun k =>
        if k = reqId then twinId else st.requestToTwinId k },
      prepareSimulationData twinId false { st with
        encryptedSimulations := fun k =>
          if k = twinId then
            some { encryptedDrugCompound := encryptedDrugCompound
                   encryptedDosage := encryptedDosage
                   encryptedProcedureType := 0 }
          else st.encryptedSimulations k })
  else .error .InvalidTwinId

/-- Mirrors requestSurgerySimulation: like the drug variant but with the
two drug branches zero-filled and a surgery payload. -/
def requestSurgerySimulation (twinId encryptedProcedureType reqId : Nat)
    (st : ContractState) :
    Except ContractError (ContractState × List Nat) :=
  if twinId ≤ st.twinCount then
    .ok ({ st with
      encryptedSimulations := fun k =>
        if k = twinId then
          some { encryptedDrugCompound := 0
                 encryptedDosage := 0
                 encryptedProcedureType := encryptedProcedureType }
        else st.encryptedSimulations k
      requestToTwinId := fun k =>
        if k = reqId then twinId else st.requestToTwinId k },
      prepareSimulationData twinId true { st with
        encryptedSimulations := fun k =>
          if k = twinId then
            some { encryptedDrugCompound := 0
                   encryptedDosage := 0
                   encryptedProcedureType := encryptedProcedureType }
          else st.encryptedSimulations k })
  else .error .InvalidTwinId

/-- Mirrors generatePrediction: ignores its input. -/
def generatePrediction (_data : List String) : String :=
  "Improved cardiac output by 15%"

/-- Mirrors assessRisks: ignores its input. -/
def assessRisks (_data : List String) : String :=
  "Low risk of arrhythmia"

/-- Mirrors suggestAdjustments: ignores its input. -/
def suggestAdjustments (_data : List String) : String :=
  "Reduce dosage by 20% for renal patients"

/-- Mirrors updateOrganTypeStatistics: a never-initialized category counter
is set to an encrypted zero and the category pushed onto organTypeList;
then one is added homomorphically to the stored ciphertext. -/
def updateOrganTypeStatistics (organType : String) (st : ContractState) :
    ContractState :=
  { st with
    encryptedOrganTypeCount := fun k =>
      if k = organType then
        some ((match st.encryptedOrganTypeCount organType with
               | none => 0
               | some c => c) + 1)
      else st.encryptedOrganTypeCount k
    organTypeList :=
      match st.encryptedOrganTypeCount organType with
      | none => st.organTypeList ++ [organType]
      | some _ => st.organTypeList }

/-- Mirrors processSimulationResult: resolves the request id through
requestToTwinId (0 meaning unregistered), rejects an already revealed
result, checks the decryption proof, then writes the three predictor
strings, sets the revealed flag and increments the category counter for
cleartexts[0].  The tracker mapping is left untouched, as in the source. -/
def processSimulationResult (verifyOk : Bool) (requestId : Nat)
    (cleartexts : List String) (st : ContractState) :
    Except ContractError ContractState :=
  if st.requestToTwinId requestId = 0 then .error .InvalidRequest
  else if (st.decryptedResults (st.requestToTwinId requestId)).isRevealed =
      true then
    .error .AlreadyProcessed
  else if verifyOk = false then .error .InvalidProof
  else
    match cleartexts.head? with
    | none => .error .IndexOutOfBounds
    | some organType0 =>
      .ok (updateOrganTypeStatistics organType0
        { st with
          decryptedResults := fun k =>
            if k = st.requestToTwinId requestId then
              { predictedEffect := generatePrediction cleartexts
                riskAssessment := assessRisks cleartexts
                recommendedAdjustment := suggestAdjustments cleartexts
                isRevealed := true }
            else st.decryptedResults k })

/-- Mirrors getSimulationResult: the view returning the three texts and
the revealed flag of a twin's result slot. -/
def getSimulationResult (twinId : Nat) (st : ContractState) :
    String × String × String × Bool :=
  ((st.decryptedResults twinId).predictedEffect,
   (st.decryptedResults twinId).riskAssessment,
   (st.decryptedResults twinId).recommendedAdjustment,
   (st.decryptedResults twinId).isRevealed)

/-- Mirrors requestOrganTypeCountDecryption: requires the category counter
to be initialized, then registers the category hash under the
oracle-chosen request id and returns the single-ciphertext payload. -/
def requestOrganTypeCountDecryption (hashFn : String → Nat)
    (organType : String) (reqId : Nat) (st : ContractState) :
    Except ContractError (ContractState × List Nat) :=
  match st.encryptedOrganTypeCount organType with
  | none => .error .OrganTypeNotFound
  | some c =>
    .ok ({ st with
      requestToTwinId := fun k =>
        if k = reqId then hashFn organType else st.requestToTwinId k },
      [c])

/-- Mirrors getOrganTypeFromHash: the first list entry whose hash matches,
none when the loop falls through to the revert. -/
def getOrganTypeFromHash (hashFn : String → Nat) (hash : Nat)
    (lst : List String) : Option String :=
  lst.find? (fun s => hashFn s == hash)

/-- Mirrors decryptOrganTypeCount: resolves the category hash from the
tracker, reverts when no known category matches, checks the proof and
decodes the clear count into a local that the source never uses; no
storage is written. -/
def decryptOrganTypeCount (hashFn : String → Nat) (verifyOk : Bool)
    (requestId : Nat) (_clearCount : Nat) (st : ContractState) :
    Except ContractError ContractState :=
  match getOrganTypeFromHash hashFn (st.requestToTwinId requestId)
      st.organTypeList with
  | none => .error .OrganTypeNotFound
  | some _ => if verifyOk = false then .error .InvalidProof else .ok st

/-- One external transaction against the contract: each constructor is one
public entry point with its arguments, including the oracle-chosen request
id or verification outcome where the entry point interacts with the
oracle. -/
inductive ContractOp where
  | create (organType physioData geneticMarkers timestamp : Nat)
  | drugSim (twinId drug dosage reqId : Nat)
  | surgerySim (twinId procType reqId : Nat)
  | simResult (verifyOk : Bool) (requestId : Nat) (cleartexts : List String)
  | countReq (organType : String) (reqId : Nat)
  | countResult (verifyOk : Bool) (requestId : Nat) (clearCount : Nat)

/-- Transactional semantics of one entry-point call: a revert leaves the
storage exactly as it was. -/
def contractStep (hashFn : String → Nat) (op : ContractOp)
    (st : ContractState) : ContractState :=
  match op with
  | .create a b c t => createEncryptedTwin a b c t st
  | .drugSim tw d g r =>
    match requestDrugSimulation tw d g r st with
    | .ok p => p.1
    | .error _ => st
  | .surgerySim tw p r =>
    match requestSurgerySimulation tw p r st with
    | .ok q => q.1
    | .error _ => st
  | .simResult v r c =>
    match processSimulationResult v r c st with
    | .ok s => s
    | .error _ => st
  | .countReq o r =>
    match requestOrganTypeCountDecryption hashFn o r st with
    | .ok p => p.1
    | .error _ => st
  | .countResult v r c =>
    match decryptOrganTypeCount hashFn v r c st with
    | .ok s => s
    | .error _ => st

/-- The storage after a sequence of transactions against a fresh
contract. -/
def execTrace (hashFn : String → Nat) (ops : List ContractOp) :
    ContractState :=
  ops.foldl (fun s op => contractStep hashFn op s) initialState

/-- Restriction of an operation to the cases a lifecycle statement ranges
over at result slot t: a createEncryptedTwin call is restricted to those
allocating an id other than t, every other entry point is unrestricted. -/
def createsOther (op : ContractOp) (st : ContractState) (t : Nat) : Prop :=
  match op with
  | ContractOp.create _ _ _ _ => st.twinCount + 1 ≠ t
  | _ => True

/-- Every result slot is either still the empty unrevealed record or has
its revealed flag set: the shape every reachable storage satisfies. -/
def UnrevealedEmpty (st : ContractState) : Prop :=
  ∀ t, (st.decryptedResults t).isRevealed = false →
    st.decryptedResults t = emptyResult

/-- Concrete hash function used by the closed scenario runs below. -/
def sampleHash : String → Nat := fun _ => 7

/-- Scenario prefix: create a twin (id 1) and request a drug simulation on
it with oracle request id 5. -/
def sampleOps2 : List ContractOp :=
  [ContractOp.create 11 12 13 100, ContractOp.drugSim 1 21 22 5]

/-- Scenario: the prefix followed by a successfully verified oracle
callback for request id 5 carrying category "heart". -/
def sampleOps : List ContractOp :=
  sampleOps2 ++ [ContractOp.simResult true 5 ["heart"]]

/-- Scenario: the successful simulation scenario followed by a request to
decrypt the "heart" category counter under oracle request id 9. -/
def sampleOpsC : List ContractOp :=
  sampleOps ++ [ContractOp.countReq ("heart") 9]

/-- Scenario with two twins and a pending drug-simulation request of twin
1 registered under oracle request id 5. -/
def sampleOpsDup : List ContractOp :=
  [ContractOp.create 11 12 13 100, ContractOp.create 14 15 16 101,
   ContractOp.drugSim 1 21 22 5]

/-! ## Frame and inversion lemmas -/

theorem uots_decryptedResults (o : String) (st : ContractState) :
    (updateOrganTypeStatistics o st).decryptedResults =
      st.decryptedResults := rfl

theorem uots_requestToTwinId (o : String) (st : ContractState) :
    (updateOrganTypeStatistics o st).requestToTwinId =
      st.requestToTwinId := rfl

theorem uots_twinCount (o : String) (st : ContractState) :
    (updateOrganTypeStatistics o st).twinCount = st.twinCount := rfl

theorem psr_ok_inv (v : Bool) (r : Nat) (c : List String)
    (st st' : ContractState)
    (h : processSimulationResult v r c st = .ok st') :
    st.requestToTwinId r ≠ 0 ∧
    (st.decryptedResults (st.requestToTwinId r)).isRevealed = false ∧
    v = true ∧
    ∃ o0, c.head? = some o0 ∧
      st' = updateOrganTypeStatistics o0
        { st with decryptedResults := fun k =>
            if k = st.requestToTwinId r then
              { predictedEffect := generatePrediction c
                riskAssessment := assessRisks c
                recommendedAdjustment := suggestAdjustments c
                isRevealed := true }
            else st.decryptedResults k } := by
  unfold processSimulationResult at h
  split at h
  next h0 => exact Except.noConfusion h
  next h0 =>
    split at h
    next h1 => exact Except.noConfusion h
    next h1 =>
      split at h
      next h2 => exact Except.noConfusion h
      next h2 =>
        split at h
        next heq => exact Except.noConfusion h
        next o0 heq =>
          injection h with h
          refine ⟨h0, ?_, ?_, o0, heq, h.symm⟩
          · cases hrev : (st.decryptedResults (st.requestToTwinId r)).isRevealed
            · rfl
            · exact absurd hrev h1
          · cases v
            · exact absurd rfl h2
            · rfl

theorem step_simResult_ok {hashFn : String → Nat} {v : Bool} {r : Nat}
    {c : List String} {st s : ContractState}
    (hq : processSimulationResult v r c st = .ok s) :
    contractStep hashFn (ContractOp.simResult v r c) st = s := by
  simp only [contractStep]
  rw [hq]

theorem step_simResult_err {hashFn : String → Nat} {v : Bool} {r : Nat}
    {c : List String} {st : ContractState} {e : ContractError}
    (hq : processSimulationResult v r c st = .error e) :
    contractStep hashFn (ContractOp.simResult v r c) st = st := by
  simp only [contractStep]
  rw [hq]

theorem doc_ok_inv {hashFn : String → Nat} {v : Bool} {r n : Nat}
    {st s : ContractState}
    (h : decryptOrganTypeCount hashFn v r n st = .ok s) : s = st := by
  unfold decryptOrganTypeCount at h
  split at h
  · exact Except.noConfusion h
  · split at h
    · exact Except.noConfusion h
    · injection h with h
      exact h.symm

theorem step_countResult_id (hashFn : String → Nat) (v : Bool) (r n : Nat)
    (st : ContractState) :
    contractStep hashFn (ContractOp.countResult v r n) st = st := by
  simp only [contractStep]
  cases hq : decryptOrganTypeCount hashFn v r n st with
  | error e => rfl
  | ok s => exact doc_ok_inv hq

theorem rds_ok_inv (twinId d g reqId : Nat) (st : ContractState)
    (p : ContractState × List Nat)
    (h : requestDrugSimulation twinId d g reqId st = .ok p) :
    twinId ≤ st.twinCount ∧
    p.1.decryptedResults = st.decryptedResults ∧
    p.1.encryptedOrganTypeCount = st.encryptedOrganTypeCount ∧
    p.1.twinCount = st.twinCount ∧
    p.1.requestToTwinId =
      fun k => if k = reqId then twinId else st.requestToTwinId k := by
  unfold requestDrugSimulation at h
  split at h
  next hle =>
    injection h with h
    subst h
    exact ⟨hle, rfl, rfl, rfl, rfl⟩
  next hle => exact Except.noConfusion h

theorem rss_ok_inv (twinId pt reqId : Nat) (st : ContractState)
    (p : ContractState × List Nat)
    (h : requestSurgerySimulation twinId pt reqId st = .ok p) :
    twinId ≤ st.twinCount ∧
    p.1.decryptedResults = st.decryptedResults ∧
    p.1.encryptedOrganTypeCount = st.encryptedOrganTypeCount ∧
    p.1.twinCount = st.twinCount ∧
    p.1.requestToTwinId =
      fun k => if k = reqId then twinId else st.requestToTwinId k := by
  unfold requestSurgerySimulation at h
  split at h
  next hle =>
    injection h with h
    subst h
    exact ⟨hle, rfl, rfl, rfl, rfl⟩
  next hle => exact Except.noConfusion h

theorem rocd_ok_inv (hashFn : String → Nat) (organType : String)
    (reqId : Nat) (st : ContractState) (p : ContractState × List Nat)
    (h : requestOrganTypeCountDecryption hashFn organType reqId st = .ok p) :
    p.1.decryptedResults = st.decryptedResults ∧
    p.1.encryptedOrganTypeCount = st.encryptedOrganTypeCount ∧
    p.1.twinCount = st.twinCount := by
  unfold requestOrganTypeCountDecryption at h
  split at h
  · exact Except.noConfusion h
  · injection h with h
    subst h
    exact ⟨rfl, rfl, rfl⟩

theorem step_decryptedResults_drugSim (hashFn : String → Nat)
    (tw d g r : Nat) (st : ContractState) :
    (contractStep hashFn (ContractOp.drugSim tw d g r) st).decryptedResults =
      st.decryptedResults := by
  simp only [contractStep]
  cases hq : requestDrugSimulation tw d g r st with
  | error e => rfl
  | ok p => exact (rds_ok_inv tw d g r st p hq).2.1

theorem step_decryptedResults_surgerySim (hashFn : String → Nat)
    (tw pt r : Nat) (st : ContractState) :
    (contractStep hashFn
        (ContractOp.surgerySim tw pt r) st).decryptedResults =
      st.decryptedResults := by
  simp only [contractStep]
  cases hq : requestSurgerySimulation tw pt r st with
  | error e => rfl
  | ok p => exact (rss_ok_inv tw pt r st p hq).2.1

theorem step_decryptedResults_countReq (hashFn : String → Nat)
    (o : String) (r : Nat) (st : ContractState) :
    (contractStep hashFn (ContractOp.countReq o r) st).decryptedResults =
      st.decryptedResults := by
  simp only [contractStep]
  cases hq : requestOrganTypeCountDecryption hashFn o r st with
  | error e => rfl
  | ok p => exact (rocd_ok_inv hashFn o r st p hq).1

theorem ue_initial : UnrevealedEmpty initialState := fun _ _ => rfl

theorem ue_step (hashFn : String → Nat) (op : ContractOp)
    (st : ContractState) (hU : UnrevealedEmpty st) :
    UnrevealedEmpty (contractStep hashFn op st) := by
  cases op with
  | create a b c t =>
    intro q hq
    show (if q = st.twinCount + 1 then emptyResult
          else st.decryptedResults q) = emptyResult
    by_cases hk : q = st.twinCount + 1
    · rw [if_pos hk]
    · rw [if_neg hk]
      refine hU q ?_
      have : (contractStep hashFn (ContractOp.create a b c t)
          st).decryptedResults q =
          (if q = st.twinCount + 1 then emptyResult
           else st.decryptedResults q) := rfl
      rw [this, if_neg hk] at hq
      exact hq
  | drugSim tw d g r =>
    intro q hq
    rw [step_decryptedResults_drugSim] at hq ⊢
    exact hU q hq
  | surgerySim tw pt r =>
    intro q hq
    rw [step_decryptedResults_surgerySim] at hq ⊢
    exact hU q hq
  | countReq o r =>
    intro q hq
    rw [step_decryptedResults_countReq] at hq ⊢
    exact hU q hq
  | countResult v r n =>
    rw [step_countResult_id]
    exact hU
  | simResult v r c =>
    cases hq : processSimulationResult v r c st with
    | error e =>
      rw [step_simResult_err hq]
      exact hU
    | ok s =>
      rw [step_simResult_ok hq]
      obtain ⟨h0, h1, hv, o0, heq, hs⟩ := psr_ok_inv v r c st s hq
      subst hs
      intro q hrev
      rw [uots_decryptedResults] at hrev ⊢
      by_cases hk : q = st.requestToTwinId r
      · simp [hk] at hrev
      · have hold : ({ st with decryptedResults := fun k =>
            if k = st.requestToTwinId r then
              { predictedEffect := generatePrediction c
                riskAssessment := assessRisks c
                recommendedAdjustment := suggestAdjustments c
                isRevealed := true }
            else st.decryptedResults k } :
            ContractState).decryptedResults q = st.decryptedResults q := by
          show (if q = st.requestToTwinId r then _ else _) = _
          rw [if_neg hk]
        rw [hold] at hrev ⊢
        exact hU q hrev

theorem ue_foldl (hashFn : String → Nat) (ops : List ContractOp) :
    ∀ st : ContractState, UnrevealedEmpty st →
      UnrevealedEmpty
        (ops.foldl (fun s op => contractStep hashFn op s) st) := by
  induction ops with
  | nil => exact fun st h => h
  | cons op rest ih =>
    intro st h
    exact ih (contractStep hashFn op st) (ue_step hashFn op st h)

theorem ue_trace (hashFn : String → Nat) (ops : List ContractOp) :
    UnrevealedEmpty (execTrace hashFn ops) :=
  ue_foldl hashFn ops initialState ue_initial

theorem revealed_mono_step (hashFn : String → Nat) (op : ContractOp)
    (st : ContractState) (t : Nat)
    (hcond : createsOther op st t)
    (hrev : (st.decryptedResults t).isRevealed = true) :
    ((contractStep hashFn op st).decryptedResults t).isRevealed = true := by
  cases op with
  | create a b c tm =>
    have hne : st.twinCount + 1 ≠ t := hcond
    show ((if t = st.twinCount + 1 then emptyResult
           else st.decryptedResults t)).isRevealed = true
    rw [if_neg (fun hx => hne hx.symm)]
    exact hrev
  | drugSim tw d g r =>
    rw [step_decryptedResults_drugSim]
    exact hrev
  | surgerySim tw pt r =>
    rw [step_decryptedResults_surgerySim]
    exact hrev
  | countReq o r =>
    rw [step_decryptedResults_countReq]
    exact hrev
  | countResult v r n =>
    rw [step_countResult_id]
    exact hrev
  | simResult v r c =>
    cases hq : processSimulationResult v r c st with
    | error e =>
      rw [step_simResult_err hq]
      exact hrev
    | ok s =>
      rw [step_simResult_ok hq]
      obtain ⟨h0, h1, hv, o0, heq, hs⟩ := psr_ok_inv v r c st s hq
      subst hs
      rw [uots_decryptedResults]
      have hk : t ≠ st.requestToTwinId r := by
        intro hx
        rw [hx] at hrev
        rw [hrev] at h1
        exact Bool.noConfusion h1
      show ((if t = st.requestToTwinId r then _
             else st.decryptedResults t) :
             DecryptedSimulationResult).isRevealed = true
      rw [if_neg hk]
      exact hrev

theorem uots_count_at (cat : String) (st : ContractState) :
    (updateOrganTypeStatistics cat st).encryptedOrganTypeCount cat =
      some ((match st.encryptedOrganTypeCount cat with
             | none => 0
             | some c => c) + 1) := by
  show (if cat = cat then _ else _) = _
  rw [if_pos rfl]

theorem uots_iterate (cat : String) (m : Nat) :
    ∀ (k : Nat) (st : ContractState),
      st.encryptedOrganTypeCount cat = some k →
      ((updateOrganTypeStatistics cat)^[m] st).encryptedOrganTypeCount cat
        = some (k + m) := by
  induction m with
  | zero =>
    intro k st h
    simpa using h
  | succ m ih =>
    intro k st h
    rw [Function.iterate_succ_apply]
    have h1 : (updateOrganTypeStatistics cat
        st).encryptedOrganTypeCount cat = some (k + 1) := by
      rw [uots_count_at, h]
    have h2 := ih (k + 1) (updateOrganTypeStatistics cat st) h1
    rw [h2]
    congr 1
    omega

/-- C7: createEncryptedTwin assigns the next id, twinCount + 1 — positive
and strictly larger than the previous counter, so across any sequence of
calls the assigned ids are strictly increasing, unique and never reused —
stores the three ciphertext handles with the creation time under that id,
initializes its result slot to the empty unrevealed record, and leaves
every already-allocated id's twin record and result slot untouched. -/
theorem create_twin_allocation (a b c t : Nat) (st : ContractState) :
    (createEncryptedTwin a b c t st).twinCount = st.twinCount + 1 ∧
    0 < (createEncryptedTwin a b c t st).twinCount ∧
    st.twinCount < (createEncryptedTwin a b c t st).twinCount ∧
    (createEncryptedTwin a b c t st).encryptedOrganTwins
        (st.twinCount + 1) =
      some { twinId := st.twinCount + 1
             encryptedOrganType := a
             encryptedPhysioData := b
             encryptedGeneticMarkers := c
             creationTime := t } ∧
    (createEncryptedTwin a b c t st).decryptedResults (st.twinCount + 1) =
      emptyResult ∧
    (∀ k, k ≤ st.twinCount →
      (createEncryptedTwin a b c t st).encryptedOrganTwins k =
          st.encryptedOrganTwins k ∧
      (createEncryptedTwin a b c t st).decryptedResults k =
          st.decryptedResults k) := by
  refine ⟨rfl, Nat.succ_pos _, Nat.lt_succ_self _, ?_, ?_, ?_⟩
  · show (if st.twinCount + 1 = st.twinCount + 1 then _ else _) = _
    rw [if_pos rfl]
  · show (if st.twinCount + 1 = st.twinCount + 1 then _ else _) = _
    rw [if_pos rfl]
  · intro k hk
    constructor
    · show (if k = st.twinCount + 1 then _ else _) = _
      rw [if_neg (by omega)]
    · show (if k = st.twinCount + 1 then _ else _) = _
      rw [if_neg (by omega)]

theorem create_twin_allocation_witness :
    (createEncryptedTwin 11 12 13 100 initialState).twinCount = 1 ∧
    (createEncryptedTwin 11 12 13 100 initialState).encryptedOrganTwins 0 =
      none :=
  ⟨(create_twin_allocation 11 12 13 100 initialState).1,
   ((create_twin_allocation 11 12 13 100 initialState).2.2.2.2.2 0
      (Nat.le_refl 0)).1⟩

/-- C9: a decryptOrganTypeCount callback is a read-only snapshot: a
successful callback returns the storage unchanged, and as a transaction
it leaves the whole storage — in particular every category's encrypted
counter — exactly as it was. -/
theorem count_decryption_readonly (hashFn : String → Nat) (v : Bool)
    (r n : Nat) (st : ContractState) (cat : String) :
    contractStep hashFn (ContractOp.countResult v r n) st = st ∧
    (contractStep hashFn
        (ContractOp.countResult v r n) st).encryptedOrganTypeCount cat =
      st.encryptedOrganTypeCount cat ∧
    (∀ st', decryptOrganTypeCount hashFn v r n st = .ok st' →
      st' = st) := by
  refine ⟨step_countResult_id hashFn v r n st, ?_, fun st' h => doc_ok_inv h⟩
  rw [step_countResult_id]

theorem count_decryption_readonly_witness :
    decryptOrganTypeCount sampleHash true 9 42
        (execTrace sampleHash sampleOpsC) =
      .ok (execTrace sampleHash sampleOpsC) ∧
    contractStep sampleHash (ContractOp.countResult true 9 42)
        (execTrace sampleHash sampleOpsC) =
      execTrace sampleHash sampleOpsC :=
  ⟨rfl,
   (count_decryption_readonly sampleHash true 9 42
      (execTrace sampleHash sampleOpsC) "heart").1⟩

/-- C6: with the homomorphic primitives modelled as exact arithmetic
(encrypted zero is 0, homomorphic add of one is successor), N blind
increments starting from a fresh category leave that category's stored
counter holding exactly N, and an increment of one category never changes
the stored counter of any other category. -/
theorem blind_increment_count (st : ContractState) (cat cat' : String)
    (N : Nat) :
    (st.encryptedOrganTypeCount cat = none →
      ((updateOrganTypeStatistics cat)^[N] st).encryptedOrganTypeCount cat
        = if N = 0 then none else some N) ∧
    (cat' ≠ cat →
      (updateOrganTypeStatistics cat st).encryptedOrganTypeCount cat' =
        st.encryptedOrganTypeCount cat') := by
  constructor
  · intro hfresh
    cases N with
    | zero => simpa using hfresh
    | succ m =>
      rw [if_neg (Nat.succ_ne_zero m)]
      rw [Function.iterate_succ_apply]
      have h1 : (updateOrganTypeStatistics cat
          st).encryptedOrganTypeCount cat = some 1 := by
        rw [uots_count_at, hfresh]
      have h2 := uots_iterate cat m 1 (updateOrganTypeStatistics cat st) h1
      rw [h2]
      congr 1
      omega
  · intro hne
    show (if cat' = cat then _ else _) = _
    rw [if_neg hne]

theorem blind_increment_count_witness :
    ((updateOrganTypeStatistics "heart")^[3]
        initialState).encryptedOrganTypeCount "heart" = some 3 ∧
    (updateOrganTypeStatistics "heart"
        initialState).encryptedOrganTypeCount "liver" = none := by
  constructor
  · have h := (blind_increment_count initialState "heart" "liver" 3).1 rfl
    simpa using h
  · exact (blind_increment_count initialState "heart" "liver" 3).2
      (by decide)

/-- C10: the predictor functions ignore the decrypted inputs and always
return the same three fixed strings, and every successful
processSimulationResult stores exactly those three constants in the
target twin's result slot with the revealed flag set. -/
theorem prediction_constant (data : List String) (v : Bool) (r : Nat)
    (c : List String) (st st' : ContractState) :
    generatePrediction data = "Improved cardiac output by 15%" ∧
    assessRisks data = "Low risk of arrhythmia" ∧
    suggestAdjustments data = "Reduce dosage by 20% for renal patients" ∧
    (processSimulationResult v r c st = .ok st' →
      st'.decryptedResults (st.requestToTwinId r) =
        { predictedEffect := "Improved cardiac output by 15%"
          riskAssessment := "Low risk of arrhythmia"
          recommendedAdjustment := "Reduce dosage by 20% for renal patients"
          isRevealed := true }) := by
  refine ⟨rfl, rfl, rfl, fun h => ?_⟩
  obtain ⟨h0, h1, hv, o0, heq, hs⟩ := psr_ok_inv v r c st st' h
  subst hs
  rw [uots_decryptedResults]
  show (if st.requestToTwinId r = st.requestToTwinId r then _ else _) = _
  rw [if_pos rfl]
  rfl

theorem prediction_constant_witness :
    (execTrace sampleHash sampleOps).decryptedResults 1 =
      { predictedEffect := "Improved cardiac output by 15%"
        riskAssessment := "Low risk of arrhythmia"
        recommendedAdjustment := "Reduce dosage by 20% for renal patients"
        isRevealed := true } :=
  (prediction_constant [] true 5 ["heart"]
    (execTrace sampleHash sampleOps2) (execTrace sampleHash sampleOps)
    ).2.2.2 rfl

/-- C4: a processSimulationResult callback that fails validation reverts
with the matching error — InvalidRequest for an unregistered id,
AlreadyProcessed for an already-revealed result, InvalidProof for a
failed proof check — and any reverted callback leaves the whole storage
unchanged, so in particular no revealed flag is set and no category
counter is incremented. -/
theorem callback_validation_atomic (hashFn : String → Nat) (v : Bool)
    (r : Nat) (c : List String) (st : ContractState) :
    (st.requestToTwinId r = 0 →
      processSimulationResult v r c st = .error .InvalidRequest) ∧
    (st.requestToTwinId r ≠ 0 →
      (st.decryptedResults (st.requestToTwinId r)).isRevealed = true →
      processSimulationResult v r c st = .error .AlreadyProcessed) ∧
    (st.requestToTwinId r ≠ 0 →
      (st.decryptedResults (st.requestToTwinId r)).isRevealed = false →
      v = false →
      processSimulationResult v r c st = .error .InvalidProof) ∧
    (∀ e, processSimulationResult v r c st = .error e →
      contractStep hashFn (ContractOp.simResult v r c) st = st) := by
  refine ⟨?_, ?_, ?_, fun e h => step_simResult_err h⟩
  · intro h0
    unfold processSimulationResult
    rw [if_pos h0]
  · intro h0 h1
    unfold processSimulationResult
    rw [if_neg h0, if_pos h1]
  · intro h0 h1 hv
    unfold processSimulationResult
    rw [if_neg h0,
        if_neg (fun hx => by rw [h1] at hx; exact Bool.noConfusion hx),
        if_pos hv]

theorem callback_validation_atomic_witness :
    processSimulationResult false 5 []
        (execTrace sampleHash sampleOps2) = .error .InvalidProof ∧
    processSimulationResult true 5 [] initialState =
      .error .InvalidRequest ∧
    contractStep sampleHash (ContractOp.simResult false 5 [])
        (execTrace sampleHash sampleOps2) =
      execTrace sampleHash sampleOps2 := by
  have T := callback_validation_atomic sampleHash false 5 []
    (execTrace sampleHash sampleOps2)
  have h1 : processSimulationResult false 5 []
      (execTrace sampleHash sampleOps2) = .error .InvalidProof :=
    T.2.2.1 (by decide) (by decide) rfl
  exact ⟨h1,
    (callback_validation_atomic sampleHash true 5 [] initialState).1 rfl,
    T.2.2.2 ContractError.InvalidProof h1⟩

theorem psr_ok_next (v' : Bool) (r : Nat) (c' : List String)
    (st st' : ContractState)
    (hok : processSimulationResult v' r c' st = .ok st') :
    st'.requestToTwinId = st.requestToTwinId ∧
    (st'.decryptedResults (st.requestToTwinId r)).isRevealed = true := by
  obtain ⟨h0, h1, hv, o0, heq, hs⟩ := psr_ok_inv v' r c' st st' hok
  subst hs
  refine ⟨uots_requestToTwinId o0 _, ?_⟩
  rw [uots_decryptedResults]
  dsimp only
  rw [if_pos rfl]

/-- C1 counterexample: in the scenario of §8 the first callback for
request id 5 succeeds, yet the second callback presenting the same,
already-resolved id reverts with the AlreadyProcessed (AlreadyRevealed)
error and not with the InvalidRequest (UnknownRequest) error the claim
requires. -/
theorem second_callback_not_unknown_request :
    okOf (processSimulationResult true 5 ["heart"]
      (execTrace sampleHash sampleOps2)) = true ∧
    errOf (processSimulationResult true 5 ["heart"]
      (execTrace sampleHash sampleOps)) =
      some ContractError.AlreadyProcessed ∧
    some ContractError.AlreadyProcessed ≠
      some ContractError.InvalidRequest :=
  ⟨rfl, rfl, by decide⟩

/-- C1 amended: a callback whose request id was never registered (its
tracker slot still holds the default 0) reverts with InvalidRequest and
leaves the storage unchanged; a callback whose request id was already
resolved by an earlier successful callback instead reverts with
AlreadyProcessed — the tracker entry survives, and the revealed flag of
the target twin rejects the duplicate — likewise leaving the storage
unchanged. -/
theorem unknown_or_resolved_callback_rejected (hashFn : String → Nat)
    (v v' : Bool) (r : Nat) (c c' : List String)
    (st st' : ContractState) :
    (st.requestToTwinId r = 0 →
      processSimulationResult v r c st = .error .InvalidRequest ∧
      contractStep hashFn (ContractOp.simResult v r c) st = st) ∧
    (processSimulationResult v' r c' st = .ok st' →
      processSimulationResult v r c st' = .error .AlreadyProcessed ∧
      contractStep hashFn (ContractOp.simResult v r c) st' = st') := by
  constructor
  · intro h0
    have he : processSimulationResult v r c st = .error .InvalidRequest := by
      unfold processSimulationResult
      rw [if_pos h0]
    exact ⟨he, step_simResult_err he⟩
  · intro hok
    obtain ⟨htr, hrev⟩ := psr_ok_next v' r c' st st' hok
    have h0 := (psr_ok_inv v' r c' st st' hok).1
    have he : processSimulationResult v r c st' =
        .error .AlreadyProcessed := by
      unfold processSimulationResult
      rw [htr]
      rw [if_neg h0]
      rw [if_pos hrev]
    exact ⟨he, step_simResult_err he⟩

theorem unknown_or_resolved_callback_rejected_witness :
    processSimulationResult true 5 [] initialState =
      .error .InvalidRequest ∧
    processSimulationResult false 5 []
        (execTrace sampleHash sampleOps) = .error .AlreadyProcessed :=
  ⟨((unknown_or_resolved_callback_rejected sampleHash true true 5 [] []
      initialState initialState).1 rfl).1,
   ((unknown_or_resolved_callback_rejected sampleHash false true 5 []
      ["heart"] (execTrace sampleHash sampleOps2)
      (execTrace sampleHash sampleOps)).2 rfl).1⟩

/-- C3 counterexample: the first callback for request id 5 succeeds, yet
afterwards the tracker still maps 5 to twin 1 — the pending entry was not
removed — and a successful count-decryption callback for request id 9
likewise leaves its tracker entry (the category hash 7) in place. -/
theorem tracker_entry_not_removed :
    okOf (processSimulationResult true 5 ["heart"]
      (execTrace sampleHash sampleOps2)) = true ∧
    (execTrace sampleHash sampleOps).requestToTwinId 5 = 1 ∧
    (1 : Nat) ≠ 0 ∧
    okOf (decryptOrganTypeCount sampleHash true 9 42
      (execTrace sampleHash sampleOpsC)) = true ∧
    (contractStep sampleHash (ContractOp.countResult true 9 42)
      (execTrace sampleHash sampleOpsC)).requestToTwinId 9 = 7 :=
  ⟨rfl, rfl, by decide, rfl, rfl⟩

/-- C3 amended: a successful callback does not remove the request id's
tracker entry: processSimulationResult leaves requestToTwinId pointwise
unchanged, and re-delivery of the same simulation request id is rejected
only through the target twin's revealed flag; decryptOrganTypeCount
leaves the whole storage, the tracker included, unchanged, so its entry
is not even logically consumed. -/
theorem callback_preserves_tracker (hashFn : String → Nat) (v v' : Bool)
    (r r' n : Nat) (c : List String) (st st' s2 : ContractState) :
    (processSimulationResult v r c st = .ok st' →
      (∀ q, st'.requestToTwinId q = st.requestToTwinId q) ∧
      processSimulationResult v' r c st' = .error .AlreadyProcessed) ∧
    (decryptOrganTypeCount hashFn v' r' n st = .ok s2 → s2 = st) := by
  constructor
  · intro hok
    obtain ⟨htr, hrev⟩ := psr_ok_next v r c st st' hok
    have h0 := (psr_ok_inv v r c st st' hok).1
    refine ⟨fun q => by rw [htr], ?_⟩
    unfold processSimulationResult
    rw [htr]
    rw [if_neg h0]
    rw [if_pos hrev]
  · exact fun h => doc_ok_inv h

theorem callback_preserves_tracker_witness :
    (execTrace sampleHash sampleOps).requestToTwinId 5 =
      (execTrace sampleHash sampleOps2).requestToTwinId 5 ∧
    decryptOrganTypeCount sampleHash true 9 42
        (execTrace sampleHash sampleOpsC) =
      .ok (execTrace sampleHash sampleOpsC) ∧
    execTrace sampleHash sampleOpsC = execTrace sampleHash sampleOpsC :=
  ⟨((callback_preserves_tracker sampleHash true true 5 9 42 ["heart"]
      (execTrace sampleHash sampleOps2) (execTrace sampleHash sampleOps)
      (execTrace sampleHash sampleOpsC)).1 rfl).1 5,
   rfl,
   (callback_preserves_tracker sampleHash true true 5 9 42 ["heart"]
      (execTrace sampleHash sampleOpsC) (execTrace sampleHash sampleOps)
      (execTrace sampleHash sampleOpsC)).2 rfl⟩

/-- C5 counterexample: twin id 0 is never allocated — on a fresh contract
no twin exists at all — yet both request entry points accept twin id 0
and issue an oracle request instead of reverting with the invalid-twin
error. -/
theorem twin_zero_request_accepted :
    initialState.twinCount = 0 ∧
    okOf (requestDrugSimulation 0 7 8 5 initialState) = true ∧
    okOf (requestSurgerySimulation 0 7 5 initialState) = true :=
  ⟨rfl, rfl, rfl⟩

/-- C5 amended: the request entry points revert with InvalidTwinId
exactly when twinId exceeds the allocation counter, leaving the storage
unchanged; every twinId up to the counter — including the
never-allocated id 0 — passes the check and the request succeeds. -/
theorem request_validation_boundary (hashFn : String → Nat)
    (twinId d g pt r : Nat) (st : ContractState) :
    (st.twinCount < twinId →
      requestDrugSimulation twinId d g r st = .error .InvalidTwinId ∧
      requestSurgerySimulation twinId pt r st = .error .InvalidTwinId ∧
      contractStep hashFn (ContractOp.drugSim twinId d g r) st = st ∧
      contractStep hashFn (ContractOp.surgerySim twinId pt r) st = st) ∧
    (twinId ≤ st.twinCount →
      okOf (requestDrugSimulation twinId d g r st) = true ∧
      okOf (requestSurgerySimulation twinId pt r st) = true) := by
  constructor
  · intro hgt
    have h1 : requestDrugSimulation twinId d g r st =
        .error .InvalidTwinId := by
      unfold requestDrugSimulation
      rw [if_neg (by omega)]
    have h2 : requestSurgerySimulation twinId pt r st =
        .error .InvalidTwinId := by
      unfold requestSurgerySimulation
      rw [if_neg (by omega)]
    refine ⟨h1, h2, ?_, ?_⟩
    · simp only [contractStep]
      rw [h1]
    · simp only [contractStep]
      rw [h2]
  · intro hle
    constructor
    · unfold requestDrugSimulation
      rw [if_pos hle]
      rfl
    · unfold requestSurgerySimulation
      rw [if_pos hle]
      rfl

theorem request_validation_boundary_witness :
    requestDrugSimulation 1 2 3 4 initialState =
      .error .InvalidTwinId ∧
    okOf (requestDrugSimulation 0 2 3 4 initialState) = true :=
  ⟨((request_validation_boundary sampleHash 1 2 3 9 4 initialState).1
      (by decide)).1,
   ((request_validation_boundary sampleHash 0 2 3 9 4 initialState).2
      (by decide)).1⟩

/-- C8 counterexample: with request id 5 pending for twin 1 (which is
still unrevealed, so the entry is unresolved), a new drug-simulation
request for twin 2 that the oracle also correlates to id 5 does not
revert with any duplicate-request-id error: it succeeds and silently
remaps id 5 to twin 2 instead of leaving the existing entry intact. -/
theorem duplicate_request_id_overwrites :
    (execTrace sampleHash sampleOpsDup).requestToTwinId 5 = 1 ∧
    ((execTrace sampleHash sampleOpsDup).decryptedResults 1).isRevealed =
      false ∧
    okOf (requestDrugSimulation 2 31 32 5
      (execTrace sampleHash sampleOpsDup)) = true ∧
    (contractStep sampleHash (ContractOp.drugSim 2 31 32 5)
      (execTrace sampleHash sampleOpsDup)).requestToTwinId 5 = 2 :=
  ⟨rfl, rfl, rfl, rfl⟩

/-- C8 amended: registering a pending request performs no duplicate
check: whenever twinId passes the range check the registration succeeds
and unconditionally overwrites the tracker slot of the request id with
the new target, whatever entry — pending or not — was there before. -/
theorem register_pending_overwrites (hashFn : String → Nat)
    (twinId d g r : Nat) (st : ContractState) :
    twinId ≤ st.twinCount →
      okOf (requestDrugSimulation twinId d g r st) = true ∧
      (contractStep hashFn (ContractOp.drugSim twinId d g r)
        st).requestToTwinId r = twinId := by
  intro hle
  constructor
  · unfold requestDrugSimulation
    rw [if_pos hle]
    rfl
  · simp only [contractStep]
    unfold requestDrugSimulation
    rw [if_pos hle]
    show (if r = r then twinId else st.requestToTwinId r) = twinId
    rw [if_pos rfl]

theorem register_pending_overwrites_witness :
    okOf (requestDrugSimulation 2 31 32 5
      (execTrace sampleHash sampleOpsDup)) = true ∧
    (contractStep sampleHash (ContractOp.drugSim 2 31 32 5)
      (execTrace sampleHash sampleOpsDup)).requestToTwinId 5 = 2 :=
  register_pending_overwrites sampleHash 2 31 32 5
    (execTrace sampleHash sampleOpsDup) (by decide)

/-- C2: the revealed flag of every twin id starts false with empty text
fields; a successful processSimulationResult callback can only target a
twin whose flag is still false and sets it true — so at most one such
callback succeeds per twin id; the flag, once true, is never reset by any
subsequent operation (createEncryptedTwin allocating another id, new
simulation requests, further callbacks of either kind); and in every
reachable storage a twin whose flag is false still has the three empty
placeholder texts, which is what getSimulationResult returns until the
single successful callback. -/
theorem revealed_lifecycle (hashFn : String → Nat)
    (ops : List ContractOp) (t : Nat) :
    initialState.decryptedResults t = emptyResult ∧
    (((execTrace hashFn ops).decryptedResults t).isRevealed = false →
      getSimulationResult t (execTrace hashFn ops) = ("", "", "", false)) ∧
    (∀ v r c st',
      processSimulationResult v r c (execTrace hashFn ops) = .ok st' →
      (((execTrace hashFn ops).decryptedResults
          ((execTrace hashFn ops).requestToTwinId r)).isRevealed = false ∧
       (st'.decryptedResults
          ((execTrace hashFn ops).requestToTwinId r)).isRevealed = true)) ∧
    (∀ op, ((execTrace hashFn ops).decryptedResults t).isRevealed = true →
      createsOther op (execTrace hashFn ops) t →
      ((contractStep hashFn op
          (execTrace hashFn ops)).decryptedResults t).isRevealed =
        true) := by
  refine ⟨rfl, ?_, ?_, ?_⟩
  · intro hf
    have he := ue_trace hashFn ops t hf
    unfold getSimulationResult
    rw [he]
    rfl
  · intro v r c st' hok
    exact ⟨(psr_ok_inv v r c _ st' hok).2.1,
           (psr_ok_next v r c _ st' hok).2⟩
  · intro op hrev hcond
    exact revealed_mono_step hashFn op _ t hcond hrev

theorem revealed_lifecycle_witness :
    getSimulationResult 1 (execTrace sampleHash []) =
      ("", "", "", false) ∧
    ((execTrace sampleHash sampleOps2).decryptedResults 1).isRevealed =
      false ∧
    ((execTrace sampleHash sampleOps).decryptedResults 1).isRevealed =
      true ∧
    ((contractStep sampleHash (ContractOp.create 1 2 3 4)
      (execTrace sampleHash sampleOps)).decryptedResults 1).isRevealed =
      true :=
  ⟨(revealed_lifecycle sampleHash [] 1).2.1 rfl,
   ((revealed_lifecycle sampleHash sampleOps2 1).2.2.1 true 5 ["heart"]
      (execTrace sampleHash sampleOps) rfl).1,
   ((revealed_lifecycle sampleHash sampleOps2 1).2.2.1 true 5 ["heart"]
      (execTrace sampleHash sampleOps) rfl).2,
   (revealed_lifecycle sampleHash sampleOps 1).2.2.2
      (ContractOp.create 1 2 3 4) rfl
      (show (execTrace sampleHash sampleOps).twinCount + 1 ≠ 1 by decide)⟩
